import Mathlib

/-!
Shallow embedding of `ResourceMonitor` (src/unnamed/part_000) from
femtowork/ssh-remote-monitor.

JavaScript numbers are modelled as exact rationals extended with `NaN`,
`Infinity` and `-Infinity` (`JSNum`): every arithmetic step that the
monitor performs on its actual inputs is exact in this model (integer
counter fields, two-decimal rounding), so double rounding is not
observable at the granularity of the specification's claims.  JavaScript
string-to-number conversions are modelled for decimal literals and
`Infinity` forms, which is the full input language of the `/proc` text
sources the monitor parses.  Timer handles are modelled by the scheduled
period in milliseconds, read rejections by `Except String`, and the
VS Code status-bar item by its `text`/`tooltip` strings.
-/

/-- A JavaScript number: an exact rational, or one of the IEEE special
values the monitor's arithmetic can produce. -/
inductive JSNum where
  | nan
  | inf
  | negInf
  | val (q : ℚ)
deriving DecidableEq

namespace JSNum

/-- JavaScript `+` on numbers. -/
def add : JSNum → JSNum → JSNum
  | nan, _ => nan
  | _, nan => nan
  | inf, negInf => nan
  | negInf, inf => nan
  | inf, _ => inf
  | _, inf => inf
  | negInf, _ => negInf
  | _, negInf => negInf
  | val a, val b => val (a + b)

/-- JavaScript unary `-` on numbers. -/
def neg : JSNum → JSNum
  | nan => nan
  | inf => negInf
  | negInf => inf
  | val a => val (-a)

/-- JavaScript binary `-` on numbers. -/
def sub (a b : JSNum) : JSNum := add a (neg b)

/-- JavaScript `*` on numbers. -/
def mul : JSNum → JSNum → JSNum
  | nan, _ => nan
  | _, nan => nan
  | inf, inf => inf
  | inf, negInf => negInf
  | negInf, inf => negInf
  | negInf, negInf => inf
  | inf, val b => if b = 0 then nan else if 0 < b then inf else negInf
  | val a, inf => if a = 0 then nan else if 0 < a then inf else negInf
  | negInf, val b => if b = 0 then nan else if 0 < b then negInf else inf
  | val a, negInf => if a = 0 then nan else if 0 < a then negInf else inf
  | val a, val b => val (a * b)

/-- JavaScript `/` on numbers (signed zero is not modelled: the monitor
never divides by a value that was produced as `-0`). -/
def div : JSNum → JSNum → JSNum
  | nan, _ => nan
  | _, nan => nan
  | inf, inf => nan
  | inf, negInf => nan
  | negInf, inf => nan
  | negInf, negInf => nan
  | inf, val b => if 0 ≤ b then inf else negInf
  | negInf, val b => if 0 ≤ b then negInf else inf
  | val _, inf => val 0
  | val _, negInf => val 0
  | val a, val b =>
      if b = 0 then (if a = 0 then nan else if 0 < a then inf else negInf)
      else val (a / b)

end JSNum

/-- Rounding of a rational to 2 decimal places the way
`parseFloat(x.toFixed(2))` does it for finite values: the nearest
multiple of `1/100`, ties toward `+∞` (ECMA-262 `toFixed` picks the
larger candidate integer on a tie). -/
def round2q (q : ℚ) : ℚ := (⌊q * 100 + 1 / 2⌋ : ℚ) / 100

/-- `parseFloat(x.toFixed(2))` on a JavaScript number: the special
values round-trip through the strings "NaN" / "Infinity" / "-Infinity"
unchanged. -/
def round2 : JSNum → JSNum
  | JSNum.nan => JSNum.nan
  | JSNum.inf => JSNum.inf
  | JSNum.negInf => JSNum.negInf
  | JSNum.val q => JSNum.val (round2q q)

/-- The runtime content of a `number | null` field of the monitor; JS
`undefined` can also be stored there (by `this.lastCpuIdle = parts[3]`
when the line has fewer than four numeric fields). -/
inductive JsField where
  | null
  | undef
  | num (n : JSNum)
deriving DecidableEq

/-- JS `ToNumber` of a stored field value when it meets an arithmetic
operator: `null` is `0`, `undefined` is `NaN`. -/
def JsField.toNum : JsField → JSNum
  | JsField.null => JSNum.val 0
  | JsField.undef => JSNum.nan
  | JsField.num n => n

/-- Assigning a possibly-out-of-range indexing result (`parts[3]`) to a
field: a missing index stores `undefined`. -/
def optToField : Option JSNum → JsField
  | none => JsField.undef
  | some n => JsField.num n

/-- JS whitespace characters relevant to `\s`, `split`, and numeric
trimming in the monitor's inputs. -/
def isWsChar (c : Char) : Bool :=
  c = ' ' || c = '\t' || c = '\n' || c = '\r' || c = '\x0b' || c = '\x0c'

/-- `String.prototype.split` with a single-character separator, on char
lists.  Always returns at least one (possibly empty) piece, like JS. -/
def splitOnChar (sep : Char) : List Char → List (List Char)
  | [] => [[]]
  | c :: cs =>
      match splitOnChar sep cs with
      | [] => [[]]
      | t :: ts => if c = sep then [] :: t :: ts else (c :: t) :: ts

/-- `data.split(sep)` for a one-character separator. -/
def jsSplitChar (sep : Char) (s : String) : List String :=
  (splitOnChar sep s.data).map (fun l => String.mk l)

/-- `String.prototype.split(/\s+/)` helper: `skipping` records whether
we are inside a separator run of whitespace. -/
def splitWsAux : Bool → List Char → List (List Char)
  | _, [] => [[]]
  | skipping, c :: cs =>
      if isWsChar c then
        if skipping then splitWsAux true cs
        else [] :: splitWsAux true cs
      else
        match splitWsAux false cs with
        | [] => [[c]]
        | t :: ts => (c :: t) :: ts

/-- `line.split(/\s+/)`: split on maximal nonempty whitespace runs; a
leading (trailing) run produces a leading (trailing) empty token. -/
def jsSplitWs (s : String) : List String :=
  (splitWsAux false s.data).map (fun l => String.mk l)

/-- `s.startsWith(p)` (on explicit char lists, first the string, then
the pattern). -/
def listStarts : List Char → List Char → Bool
  | _, [] => true
  | [], _ :: _ => false
  | c :: cs, d :: ds => c = d && listStarts cs ds

/-- `s.startsWith(p)` on strings. -/
def strStarts (s p : String) : Bool := listStarts s.data p.data

/-- Read a maximal run of decimal digits: accumulated value, number of
digits read, rest of the input. -/
def readDigits : List Char → Nat → Nat → Nat × Nat × List Char
  | [], acc, cnt => (acc, cnt, [])
  | c :: cs, acc, cnt =>
      if c.isDigit then readDigits cs (10 * acc + (c.toNat - 48)) (cnt + 1)
      else (acc, cnt, c :: cs)

/-- Parse an optional exponent part `e[+-]?digits`; `none` when the
input does not start with a well-formed exponent (the caller then
leaves it unconsumed, as JS backtracks). -/
def parseExp (l : List Char) : Option (Int × List Char) :=
  match l with
  | [] => none
  | c :: cs =>
      if c = 'e' ∨ c = 'E' then
        match cs with
        | [] => none
        | s :: cs2 =>
            if s = '+' then
              match readDigits cs2 0 0 with
              | (v, n, r) => if n = 0 then none else some ((v : Int), r)
            else if s = '-' then
              match readDigits cs2 0 0 with
              | (v, n, r) => if n = 0 then none else some (-(v : Int), r)
            else
              match readDigits cs 0 0 with
              | (v, n, r) => if n = 0 then none else some ((v : Int), r)
      else none

/-- Parse an unsigned decimal mantissa with optional fraction and
exponent, returning its exact value and the unconsumed rest; `none`
when no digit is present before the exponent. -/
def parseMantissa (l : List Char) : Option (ℚ × List Char) :=
  match readDigits l 0 0 with
  | (v1, n1, r1) =>
      let fr : Nat × Nat × List Char :=
        match r1 with
        | '.' :: rest => readDigits rest 0 0
        | _ => (0, 0, r1)
      match fr with
      | (v2, n2, r2) =>
          if n1 + n2 = 0 then none
          else
            let base : ℚ := (v1 : ℚ) + (v2 : ℚ) / ((10 : ℚ) ^ n2)
            match parseExp r2 with
            | some (e, r3) => some (base * (10 : ℚ) ^ e, r3)
            | none => some (base, r2)

/-- JS `Number(s)` (`ToNumber` of a string) for the decimal and
`Infinity` literal forms; the whole (trimmed) string must be consumed,
the empty string is `0`.  Hex/octal/binary literals, which never occur
in `/proc` text, are not modelled. -/
def jsNumber (s : String) : JSNum :=
  let l := ((s.data.dropWhile isWsChar).reverse.dropWhile isWsChar).reverse
  match l with
  | [] => JSNum.val 0
  | _ =>
      let sb : ℚ × List Char :=
        match l with
        | '+' :: rest => (1, rest)
        | '-' :: rest => (-1, rest)
        | _ => (1, l)
      match sb with
      | (sgn, body) =>
          if body = "Infinity".data then
            (if sgn = 1 then JSNum.inf else JSNum.negInf)
          else
            match parseMantissa body with
            | some (q, []) => JSNum.val (sgn * q)
            | _ => JSNum.nan

/-- JS `parseFloat(s)`: skip leading whitespace, read the longest valid
decimal (or `Infinity`) literal as a sign-prefixed mantissa, ignore the
rest; `NaN` when no prefix parses. -/
def parseFloatJS (s : String) : JSNum :=
  let l := s.data.dropWhile isWsChar
  let sb : ℚ × List Char :=
    match l with
    | '+' :: rest => (1, rest)
    | '-' :: rest => (-1, rest)
    | _ => (1, l)
  match sb with
  | (sgn, body) =>
      if listStarts body "Infinity".data then
        (if sgn = 1 then JSNum.inf else JSNum.negInf)
      else
        match parseMantissa body with
        | some (q, _) => JSNum.val (sgn * q)
        | none => JSNum.nan

/-- JS `parseInt(s)` with no radix argument on the decimal strings the
monitor feeds it (`extractValue` only ever returns digit strings): skip
whitespace, optional sign, longest digit prefix; `NaN` when there is no
digit. -/
def parseIntJS (s : String) : JSNum :=
  let l := s.data.dropWhile isWsChar
  let sb : ℚ × List Char :=
    match l with
    | '+' :: rest => (1, rest)
    | '-' :: rest => (-1, rest)
    | _ => (1, l)
  match sb with
  | (sgn, body) =>
      match readDigits body 0 0 with
      | (v, n, _) => if n = 0 then JSNum.nan else JSNum.val (sgn * (v : ℚ))

/-- Decimal digits of `rem/den` (with `rem < den`), emitted by long
division; `fuel` bounds the number of digits, enough for every value
the monitor renders (all of which have terminating expansions). -/
def fracDigits : Nat → Nat → Nat → List Char
  | 0, _, _ => []
  | fuel + 1, rem, den =>
      if rem = 0 then []
      else Char.ofNat (48 + rem * 10 / den) :: fracDigits fuel (rem * 10 % den) den

/-- ECMA-262 `Number::toString` of a finite value, modelled for
rationals with a terminating decimal expansion (the only values the
monitor ever renders); scientific-notation thresholds are out of the
monitor's range and not modelled. -/
def ratToString (q : ℚ) : String :=
  let sgn := if q < 0 then "-" else ""
  let n := q.num.natAbs
  let d := q.den
  let ip := n / d
  let fr := fracDigits 100 (n % d) d
  sgn ++ Nat.repr ip ++ (if fr = [] then "" else "." ++ String.mk fr)

/-- JS string interpolation of a number (`${x}`). -/
def jsToString : JSNum → String
  | JSNum.nan => "NaN"
  | JSNum.inf => "Infinity"
  | JSNum.negInf => "-Infinity"
  | JSNum.val q => ratToString q

/-- `lines.find(line => line.startsWith("cpu "))` of `parseCPUUsage`. -/
def findCpuLine (data : String) : Option String :=
  (jsSplitChar '\n' data).find? (fun line => strStarts line "cpu ")

/-- `cpuLine.split(/\s+/).slice(1).map(Number)` of `parseCPUUsage`. -/
def cpuParts (line : String) : List JSNum :=
  ((jsSplitWs line).drop 1).map jsNumber

/-- `parts[3]`, the idle counter of an aggregate CPU line (`none` when
the line has fewer than four numeric fields, i.e. JS `undefined`). -/
def cpuIdleOf (line : String) : Option JSNum := (cpuParts line)[3]?

/-- `parts.reduce((a, b) => a + b, 0)`, the total counter of an
aggregate CPU line. -/
def cpuTotalOf (line : String) : JSNum :=
  (cpuParts line).foldl JSNum.add (JSNum.val 0)

/-- The CPU-counter state of a `ResourceMonitor`: fields `lastCpuIdle`
and `lastCpuTotal`, both initialized to `null`. -/
structure CpuState where
  lastCpuIdle : JsField
  lastCpuTotal : JsField
deriving DecidableEq

/-- A fresh monitor's CPU-counter state. -/
def freshCpu : CpuState := ⟨JsField.null, JsField.null⟩

/-- `ResourceMonitor.parseCPUUsage(data)`: returns the computed
percentage and the updated counter state. -/
def parseCPUUsage (st : CpuState) (data : String) : JSNum × CpuState :=
  match findCpuLine data with
  | none => (JSNum.val 0, st)
  | some cpuLine =>
      let idle := cpuIdleOf cpuLine
      let total := cpuTotalOf cpuLine
      if st.lastCpuIdle = JsField.null ∨ st.lastCpuTotal = JsField.null then
        (JSNum.val 0, ⟨optToField idle, JsField.num total⟩)
      else
        let idleDiff := JSNum.sub (optToField idle).toNum st.lastCpuIdle.toNum
        let totalDiff := JSNum.sub total st.lastCpuTotal.toNum
        let st2 : CpuState := ⟨optToField idle, JsField.num total⟩
        if totalDiff = JSNum.val 0 then (JSNum.val 0, st2)
        else
          (round2 (JSNum.mul (JSNum.div (JSNum.sub totalDiff idleDiff) totalDiff)
            (JSNum.val 100)), st2)

/-- `line.match(/:\s+(\d+)/)` scanner: at each `:`, greedily consume
the whitespace run; the match succeeds when at least one whitespace
character was consumed and a digit follows, capturing the maximal digit
run (regex backtracking into `\s+` can never succeed, since a shorter
whitespace run is followed by whitespace, not a digit). -/
def extractValueAux : List Char → Option (List Char)
  | [] => none
  | c :: rest =>
      if c = ':' then
        let ws := rest.takeWhile (fun d => isWsChar d)
        let after := rest.dropWhile (fun d => isWsChar d)
        if ws ≠ [] ∧ (after.headD ' ').isDigit then
          some (after.takeWhile Char.isDigit)
        else extractValueAux rest
      else extractValueAux rest

/-- `ResourceMonitor.extractValue(line)`: the first captured digit run
after a `:` and whitespace, or `"0"`. -/
def extractValue (line : String) : String :=
  match extractValueAux line.data with
  | some ds => String.mk ds
  | none => "0"

/-- `ResourceMonitor.parseMemoryUsage(data)`. -/
def parseMemoryUsage (data : String) : JSNum :=
  let lines := jsSplitChar '\n' data
  let memTotal := parseIntJS (extractValue
    ((lines.find? (fun line => strStarts line "MemTotal:")).getD "MemTotal: 0 kB"))
  let memAvailable := parseIntJS (extractValue
    ((lines.find? (fun line => strStarts line "MemAvailable:")).getD "MemAvailable: 0 kB"))
  let used := JSNum.sub memTotal memAvailable
  round2 (JSNum.mul (JSNum.div used memTotal) (JSNum.val 100))

/-- `ResourceMonitor.parseLoadAverages(data)`:
`data.split(" ").slice(0, 3).map(avg => parseFloat(avg))`. -/
def parseLoadAverages (data : String) : List JSNum :=
  ((jsSplitChar ' ' data).take 3).map parseFloatJS

/-- The `DisplayOptions` interface: which metrics to show. -/
structure DisplayOptions where
  showCpu : Bool
  showMemory : Bool
  showLoad : Bool
deriving DecidableEq

/-- `ResourceMonitor.updateStatusBar(cpu, memory, load)`: the status
bar text and tooltip written to the status-bar item. -/
def updateStatusBar (opts : DisplayOptions) (cpu memory : JSNum)
    (load : List JSNum) : String × String :=
  let parts : List String :=
    (if opts.showCpu then ["CPU: " ++ jsToString cpu ++ "%"] else []) ++
    (if opts.showMemory then ["MEM: " ++ jsToString memory ++ "%"] else []) ++
    (if opts.showLoad then
      ["Load: " ++ String.intercalate ", " (load.map jsToString)] else [])
  let text :=
    if parts = [] then "$(gear) Configure Monitor"
    else String.intercalate " | " parts
  let tooltip :=
    "Resource information of the remote server\n" ++
    "CPU: " ++ jsToString cpu ++ "%\n" ++
    "Memory: " ++ jsToString memory ++ "%\n" ++
    "Load: " ++ String.intercalate ", " (load.map jsToString) ++ "\n\n" ++
    "Click to configure displayed metrics"
  (text, tooltip)

/-- The observable state of a `ResourceMonitor` instance.  The timer
handle `intervalId` carries the period in milliseconds it was scheduled
with (`intervalSeconds * 1000`); `statusText`/`statusTooltip` are the
status-bar item's current strings. -/
structure MonitorState where
  intervalId : Option ℚ
  intervalSeconds : ℚ
  statusText : String
  statusTooltip : String
  displayOptions : DisplayOptions
  cpu : CpuState
deriving DecidableEq

/-- `ResourceMonitor.stop()`: when a timer is active, clear it and
blank the status text; otherwise do nothing. -/
def stop (st : MonitorState) : MonitorState :=
  match st.intervalId with
  | some _ => { st with intervalId := none, statusText := "" }
  | none => st

/-- `ResourceMonitor.start()`: stop any active timer, then schedule a
new one with period `intervalSeconds * 1000` ms. -/
def start (st : MonitorState) : MonitorState :=
  let st1 := if st.intervalId.isSome then stop st else st
  { st1 with intervalId := some (st1.intervalSeconds * 1000) }

/-- `ResourceMonitor.updateInterval(newIntervalSeconds)`. -/
def updateInterval (st : MonitorState) (newIntervalSeconds : ℚ) : MonitorState :=
  let wasRunning := st.intervalId.isSome
  let st1 := if wasRunning then stop st else st
  let st2 := { st1 with intervalSeconds := newIntervalSeconds }
  if wasRunning then start st2 else st2

/-- `ResourceMonitor.collectAndUpdate()`: the three reads are passed as
`Except` values (a rejected read carries its error message).  Returns
the updated monitor state and the message shown via
`showErrorMessage`, if any. -/
def collectAndUpdate (st : MonitorState)
    (cpuRead memRead loadRead : Except String String) :
    MonitorState × Option String :=
  match cpuRead with
  | Except.error e => (st, some ("Resource collection error: " ++ e))
  | Except.ok cpuData =>
      match memRead with
      | Except.error e => (st, some ("Resource collection error: " ++ e))
      | Except.ok memData =>
          match loadRead with
          | Except.error e => (st, some ("Resource collection error: " ++ e))
          | Except.ok loadData =>
              let r := parseCPUUsage st.cpu cpuData
              let memoryUsage := parseMemoryUsage memData
              let loadAverages := parseLoadAverages loadData
              let ts := updateStatusBar st.displayOptions r.1 memoryUsage loadAverages
              ({ st with cpu := r.2, statusText := ts.1, statusTooltip := ts.2 },
                none)

/-- The CPU test blob of the repository's test suite (first sample). -/
def procStatSample1 : String :=
  "cpu  1000 200 300 4000 500 600 700 800\ncpu0 100 20 30 400 50 60 70 80\ncpu1 100 20 30 400 50 60 70 80\nintr 123456789"

/-- The CPU test blob of the repository's test suite (second sample). -/
def procStatSample2 : String :=
  "cpu  1500 300 400 4500 600 700 800 900\ncpu0 150 30 40 450 60 70 80 90\ncpu1 150 30 40 450 60 70 80 90\nintr 123456790"

/-- The memory test blob of the repository's test suite. -/
def memInfoSample : String :=
  "MemTotal:       16384000 kB\nMemFree:         8192000 kB\nMemAvailable:    6553600 kB\nBuffers:          819200 kB"

/-- A monitor as the constructor leaves it (default interval 1s, all
display options on, no timer, empty status bar, unprimed counters). -/
def freshMonitor : MonitorState :=
  { intervalId := none
    intervalSeconds := 1
    statusText := ""
    statusTooltip := ""
    displayOptions := { showCpu := true, showMemory := true, showLoad := true }
    cpu := freshCpu }

theorem optToField_ne_null (o : Option JSNum) : optToField o ≠ JsField.null := by
  cases o <;> simp [optToField]

/-- When no aggregate CPU line is found, `parseCPUUsage` returns `0`
and leaves the state untouched. -/
theorem parseCPUUsage_not_found (st : CpuState) (data : String)
    (h : findCpuLine data = none) :
    parseCPUUsage st data = (JSNum.val 0, st) := by
  unfold parseCPUUsage
  rw [h]

/-- When an aggregate CPU line is found, `parseCPUUsage` always stores
that sample's idle and total, whichever branch computed the result. -/
theorem parseCPUUsage_found_state (st : CpuState) (data line : String)
    (h : findCpuLine data = some line) :
    (parseCPUUsage st data).2 =
      ⟨optToField (cpuIdleOf line), JsField.num (cpuTotalOf line)⟩ := by
  unfold parseCPUUsage
  rw [h]
  dsimp only
  split
  · rfl
  · split <;> rfl

theorem splitOnChar_length_pos (sep : Char) (l : List Char) :
    0 < (splitOnChar sep l).length := by
  cases l with
  | nil => simp [splitOnChar]
  | cons c cs =>
      unfold splitOnChar
      cases h : splitOnChar sep cs with
      | nil => simp
      | cons t ts =>
          dsimp only
          split <;> simp

set_option maxRecDepth 100000 in
set_option maxHeartbeats 1000000 in
/-- Claim C1: on a fresh monitor the first `parseCPUUsage` call returns
`0` for every input; on the test suite's first sample it stores idle
`4000` and total `8100`, and the second call on the second sample
returns `68.75` (exactly, in the rational model). -/
theorem c1_first_call_zero_then_delta :
    (∀ data : String, (parseCPUUsage freshCpu data).1 = JSNum.val 0) ∧
    (parseCPUUsage freshCpu procStatSample1).2 =
      ⟨JsField.num (JSNum.val 4000), JsField.num (JSNum.val 8100)⟩ ∧
    (parseCPUUsage (parseCPUUsage freshCpu procStatSample1).2 procStatSample2).1 =
      JSNum.val (68.75 : ℚ) := by
  refine ⟨?_, ?_, ?_⟩
  · intro data
    unfold parseCPUUsage
    cases h : findCpuLine data <;> simp [freshCpu]
  · simp +decide [parseCPUUsage, findCpuLine, jsSplitChar, splitOnChar, strStarts,
      listStarts, cpuIdleOf, cpuTotalOf, cpuParts, jsSplitWs, splitWsAux, isWsChar,
      jsNumber, parseMantissa, parseExp, readDigits, freshCpu, optToField,
      JSNum.add, JSNum.sub, JSNum.neg, procStatSample1]
    norm_num
  · simp +decide [parseCPUUsage, findCpuLine, jsSplitChar, splitOnChar, strStarts,
      listStarts, cpuIdleOf, cpuTotalOf, cpuParts, jsSplitWs, splitWsAux, isWsChar,
      jsNumber, parseMantissa, parseExp, readDigits, freshCpu, optToField,
      JSNum.add, JSNum.sub, JSNum.neg, JSNum.mul, JSNum.div, JsField.toNum,
      round2, round2q, procStatSample1, procStatSample2]
    norm_num

set_option maxRecDepth 100000 in
set_option maxHeartbeats 1000000 in
/-- Claim C7: `parseLoadAverages` takes the first three space-separated
tokens and `parseFloat`s each; the test suite's well-formed input gives
`[1.25, 0.75, 0.5]`, the input `"invalid"` gives a single `NaN`. -/
theorem c7_load_averages :
    parseLoadAverages "1.25 0.75 0.50 2/123 12345" =
      [JSNum.val (1.25 : ℚ), JSNum.val (0.75 : ℚ), JSNum.val (0.5 : ℚ)] ∧
    parseLoadAverages "invalid" = [JSNum.nan] ∧
    (∀ data : String,
      parseLoadAverages data = ((jsSplitChar ' ' data).take 3).map parseFloatJS) := by
  refine ⟨?_, ?_, fun _ => rfl⟩ <;>
  · simp +decide [parseLoadAverages, jsSplitChar, splitOnChar, parseFloatJS,
      isWsChar, listStarts, parseMantissa, parseExp, readDigits]
    try norm_num

theorem ratToString_fifty : ratToString 50 = "50" := by
  simp +decide [ratToString, fracDigits,
    show ((50 : ℚ)).num = 50 from by norm_num,
    show ((50 : ℚ)).den = 1 from by norm_num,
    show ¬((50 : ℚ) < 0) from by norm_num]

theorem ratToString_thirty : ratToString 30 = "30" := by
  simp +decide [ratToString, fracDigits,
    show ((30 : ℚ)).num = 30 from by norm_num,
    show ((30 : ℚ)).den = 1 from by norm_num,
    show ¬((30 : ℚ) < 0) from by norm_num]

theorem ratToString_one : ratToString 1 = "1" := by
  simp +decide [ratToString, fracDigits,
    show ((1 : ℚ)).num = 1 from by norm_num,
    show ((1 : ℚ)).den = 1 from by norm_num,
    show ¬((1 : ℚ) < 0) from by norm_num]

theorem ratToString_three_quarters : ratToString (0.75 : ℚ) = "0.75" := by
  simp +decide [ratToString, fracDigits,
    show ((0.75 : ℚ)).num = 3 from by norm_num,
    show ((0.75 : ℚ)).den = 4 from by norm_num,
    show ¬((0.75 : ℚ) < 0) from by norm_num]

theorem ratToString_half : ratToString (0.5 : ℚ) = "0.5" := by
  simp +decide [ratToString, fracDigits,
    show ((0.5 : ℚ)).num = 1 from by norm_num,
    show ((0.5 : ℚ)).den = 2 from by norm_num,
    show ¬((0.5 : ℚ) < 0) from by norm_num]

set_option maxRecDepth 100000 in
set_option maxHeartbeats 1000000 in
/-- Claim C8: with all display flags on, the sample
`{cpu: 50, memory: 30, load: [1.0, 0.75, 0.5]}` renders exactly
`"CPU: 50% | MEM: 30% | Load: 1, 0.75, 0.5"`; with all flags off the
status text is the configuration placeholder, which is not empty. -/
theorem c8_status_bar_rendering :
    (updateStatusBar ⟨true, true, true⟩ (JSNum.val 50) (JSNum.val 30)
        [JSNum.val 1, JSNum.val (0.75 : ℚ), JSNum.val (0.5 : ℚ)]).1 =
      "CPU: 50% | MEM: 30% | Load: 1, 0.75, 0.5" ∧
    (updateStatusBar ⟨false, false, false⟩ (JSNum.val 50) (JSNum.val 30)
        [JSNum.val 1, JSNum.val (0.75 : ℚ), JSNum.val (0.5 : ℚ)]).1 =
      "$(gear) Configure Monitor" ∧
    "$(gear) Configure Monitor" ≠ "" := by
  refine ⟨?_, ?_, by decide⟩
  · simp +decide [updateStatusBar, jsToString, String.intercalate,
      ratToString_fifty, ratToString_thirty, ratToString_one,
      ratToString_three_quarters, ratToString_half]
  · simp +decide [updateStatusBar]

/-- Claim C10: `parseLoadAverages` always returns between one and three
entries: splitting any string on a space yields at least one token. -/
theorem c10_load_length (data : String) :
    1 ≤ (parseLoadAverages data).length ∧ (parseLoadAverages data).length ≤ 3 := by
  have h := splitOnChar_length_pos ' ' data.data
  unfold parseLoadAverages jsSplitChar
  simp only [List.length_map, List.length_take]
  omega

theorem JSNum.sub_val (a b : ℚ) :
    JSNum.sub (JSNum.val a) (JSNum.val b) = JSNum.val (a - b) := by
  simp [JSNum.sub, JSNum.add, JSNum.neg, sub_eq_add_neg]

theorem JSNum.mul_val (a b : ℚ) :
    JSNum.mul (JSNum.val a) (JSNum.val b) = JSNum.val (a * b) := rfl

theorem JSNum.div_val (a b : ℚ) (h : b ≠ 0) :
    JSNum.div (JSNum.val a) (JSNum.val b) = JSNum.val (a / b) := by
  simp [JSNum.div, h]

theorem round2q_mem_Icc (q : ℚ) (h0 : 0 ≤ q) (h1 : q ≤ 100) :
    0 ≤ round2q q ∧ round2q q ≤ 100 := by
  unfold round2q
  constructor
  · apply div_nonneg _ (by norm_num : (0 : ℚ) ≤ 100)
    have h : (0 : ℤ) ≤ ⌊q * 100 + 1 / 2⌋ := Int.le_floor.mpr (by push_cast; linarith)
    exact_mod_cast h
  · rw [div_le_iff₀ (by norm_num : (0 : ℚ) < 100)]
    have h : ⌊q * 100 + 1 / 2⌋ < (10001 : ℤ) := Int.floor_lt.mpr (by push_cast; linarith)
    have h2 : ⌊q * 100 + 1 / 2⌋ ≤ (10000 : ℤ) := by omega
    calc ((⌊q * 100 + 1 / 2⌋ : ℤ) : ℚ) ≤ (10000 : ℚ) := by exact_mod_cast h2
    _ = 100 * 100 := by norm_num

/-- Claim C2: if any of the three reads fails, `collectAndUpdate`
returns the state unchanged (status text, tooltip and CPU counters
included) and surfaces exactly one error message built from the first
failing read's message; the function is total, so no exception
escapes. -/
theorem c2_read_failure_aborts (st : MonitorState)
    (r1 r2 r3 : Except String String)
    (h : (∃ e, r1 = Except.error e) ∨ (∃ e, r2 = Except.error e) ∨
      (∃ e, r3 = Except.error e)) :
    (collectAndUpdate st r1 r2 r3).1 = st ∧
    ∃ e, (r1 = Except.error e ∨ r2 = Except.error e ∨ r3 = Except.error e) ∧
      (collectAndUpdate st r1 r2 r3).2 =
        some ("Resource collection error: " ++ e) := by
  rcases r1 with e1 | v1
  · exact ⟨rfl, e1, Or.inl rfl, rfl⟩
  · rcases r2 with e2 | v2
    · exact ⟨rfl, e2, Or.inr (Or.inl rfl), rfl⟩
    · rcases r3 with e3 | v3
      · exact ⟨rfl, e3, Or.inr (Or.inr rfl), rfl⟩
      · rcases h with ⟨e, he⟩ | ⟨e, he⟩ | ⟨e, he⟩ <;> simp at he

theorem c2_read_failure_aborts_witness :
    (collectAndUpdate freshMonitor (Except.error "EACCES") (Except.ok "")
      (Except.ok "")).1 = freshMonitor ∧
    ∃ e, ((Except.error "EACCES" : Except String String) = Except.error e ∨
        (Except.ok "" : Except String String) = Except.error e ∨
        (Except.ok "" : Except String String) = Except.error e) ∧
      (collectAndUpdate freshMonitor (Except.error "EACCES") (Except.ok "")
        (Except.ok "")).2 = some ("Resource collection error: " ++ e) :=
  c2_read_failure_aborts freshMonitor (Except.error "EACCES") (Except.ok "")
    (Except.ok "") (Or.inl ⟨"EACCES", rfl⟩)

/-- Claim C4: when no aggregate CPU line is present the result is `0`
and the stored counters are untouched; when one is present the stored
counters are overwritten with that sample's idle (4th numeric field,
`undefined` when missing) and total (sum of all numeric fields), in
every branch. -/
theorem c4_counters_frame (st : CpuState) (data : String) :
    (findCpuLine data = none → parseCPUUsage st data = (JSNum.val 0, st)) ∧
    (∀ line, findCpuLine data = some line →
      (parseCPUUsage st data).2 =
        ⟨optToField (cpuIdleOf line), JsField.num (cpuTotalOf line)⟩) :=
  ⟨fun h => parseCPUUsage_not_found st data h,
   fun line h => parseCPUUsage_found_state st data line h⟩

theorem c4_counters_frame_witness :
    parseCPUUsage freshCpu "intr 12345" = (JSNum.val 0, freshCpu) ∧
    (parseCPUUsage freshCpu "cpu  1 2 3 4").2 =
      ⟨optToField (cpuIdleOf "cpu  1 2 3 4"),
       JsField.num (cpuTotalOf "cpu  1 2 3 4")⟩ :=
  ⟨(c4_counters_frame freshCpu "intr 12345").1 (by decide),
   (c4_counters_frame freshCpu "cpu  1 2 3 4").2 "cpu  1 2 3 4" (by decide)⟩

/-- Claim C3: for two successive `parseCPUUsage` calls whose aggregate
lines have the same (finite) field sum, `totalDiff` is `0`, the guard
takes effect, and the second call returns exactly `0`. -/
theorem c3_zero_total_diff (st : CpuState) (d1 d2 l1 l2 : String) (t : ℚ)
    (h1 : findCpuLine d1 = some l1) (h2 : findCpuLine d2 = some l2)
    (ht1 : cpuTotalOf l1 = JSNum.val t) (ht2 : cpuTotalOf l2 = JSNum.val t) :
    (parseCPUUsage (parseCPUUsage st d1).2 d2).1 = JSNum.val 0 := by
  rw [parseCPUUsage_found_state st d1 l1 h1]
  unfold parseCPUUsage
  rw [h2]
  dsimp only
  rw [if_neg, ht1, ht2]
  · simp [JsField.toNum, JSNum.sub_val]
  · rcases hio : cpuIdleOf l1 with _ | n <;> simp [hio, optToField]

theorem c3_zero_total_diff_witness :
    (parseCPUUsage (parseCPUUsage freshCpu "cpu  1 1 1 1 1 1 1 1").2
      "cpu  2 1 1 1 1 1 1 0").1 = JSNum.val 0 :=
  c3_zero_total_diff freshCpu "cpu  1 1 1 1 1 1 1 1" "cpu  2 1 1 1 1 1 1 0"
    "cpu  1 1 1 1 1 1 1 1" "cpu  2 1 1 1 1 1 1 0" 8 (by decide) (by decide)
    (by simp +decide [cpuTotalOf, cpuParts, jsSplitWs, splitWsAux, isWsChar,
      jsNumber, parseMantissa, parseExp, readDigits, JSNum.add]; norm_num)
    (by simp +decide [cpuTotalOf, cpuParts, jsSplitWs, splitWsAux, isWsChar,
      jsNumber, parseMantissa, parseExp, readDigits, JSNum.add]; norm_num)

/-- A CPU sample whose counters are larger than the next sample's: the
kernel's counters never shrink, but the parser accepts any input. -/
def cpuShrinkSample1 : String := "cpu  0 0 0 500 0 0 0 0"

/-- The follow-up sample with smaller counters than
`cpuShrinkSample1`. -/
def cpuShrinkSample2 : String := "cpu  100 0 0 0 0 0 0 0"

set_option maxRecDepth 100000 in
set_option maxHeartbeats 1000000 in
/-- Claim C5 fails on the code: when the counters decrease between two
samples (`idleDiff = -500`, `totalDiff = -400`), the second call
returns `-25`, which is below `0`. -/
theorem c5_range_counterexample :
    (parseCPUUsage (parseCPUUsage freshCpu cpuShrinkSample1).2
      cpuShrinkSample2).1 = JSNum.val (-25) ∧ (-25 : ℚ) < 0 := by
  constructor
  · simp +decide [parseCPUUsage, findCpuLine, jsSplitChar, splitOnChar, strStarts,
      listStarts, cpuIdleOf, cpuTotalOf, cpuParts, jsSplitWs, splitWsAux, isWsChar,
      jsNumber, parseMantissa, parseExp, readDigits, freshCpu, optToField,
      JSNum.add, JSNum.sub, JSNum.neg, JSNum.mul, JSNum.div, JsField.toNum,
      round2, round2q, cpuShrinkSample1, cpuShrinkSample2]
    norm_num
  · norm_num

/-- Claim C5 amended: when the stored counters hold finite numbers, the
aggregate line parses to a finite idle and total, and the sample is
monotone the way real cumulative counters are (`idle` advanced by at
least `0` and `total` advanced by at least as much as `idle`), the
result is a rational between `0` and `100`. -/
theorem c5_range_amended (st : CpuState) (data line : String) (i t iN tN : ℚ)
    (hfind : findCpuLine data = some line)
    (hi : st.lastCpuIdle = JsField.num (JSNum.val i))
    (ht : st.lastCpuTotal = JsField.num (JSNum.val t))
    (hidle : cpuIdleOf line = some (JSNum.val iN))
    (htotal : cpuTotalOf line = JSNum.val tN)
    (hmono1 : i ≤ iN) (hmono2 : iN - i ≤ tN - t) :
    ∃ q : ℚ, (parseCPUUsage st data).1 = JSNum.val q ∧ 0 ≤ q ∧ q ≤ 100 := by
  unfold parseCPUUsage
  rw [hfind]
  dsimp only
  rw [hidle, htotal, hi, ht]
  rw [if_neg (by simp)]
  dsimp only [optToField, JsField.toNum]
  rw [JSNum.sub_val, JSNum.sub_val]
  by_cases hzero : tN - t = 0
  · rw [if_pos (by rw [hzero])]
    exact ⟨0, rfl, le_refl 0, by norm_num⟩
  · rw [if_neg (by simp [hzero])]
    have hpos : 0 < tN - t :=
      lt_of_le_of_ne (le_trans (by linarith) hmono2) (Ne.symm hzero)
    rw [JSNum.sub_val, JSNum.div_val _ _ hzero, JSNum.mul_val]
    refine ⟨round2q ((tN - t - (iN - i)) / (tN - t) * 100), rfl, ?_⟩
    have hfrac0 : 0 ≤ (tN - t - (iN - i)) / (tN - t) :=
      div_nonneg (by linarith) hpos.le
    have hfrac1 : (tN - t - (iN - i)) / (tN - t) ≤ 1 :=
      (div_le_one hpos).mpr (by linarith)
    exact round2q_mem_Icc _ (by linarith) (by linarith)

theorem c5_range_amended_witness :
    ∃ q : ℚ, (parseCPUUsage
      ⟨JsField.num (JSNum.val 4000), JsField.num (JSNum.val 8100)⟩
      procStatSample2).1 = JSNum.val q ∧ 0 ≤ q ∧ q ≤ 100 :=
  c5_range_amended ⟨JsField.num (JSNum.val 4000), JsField.num (JSNum.val 8100)⟩
    procStatSample2 "cpu  1500 300 400 4500 600 700 800 900" 4000 8100 4500 9700
    (by decide) rfl rfl
    (by simp +decide [cpuIdleOf, cpuParts, jsSplitWs, splitWsAux, isWsChar,
      jsNumber, parseMantissa, parseExp, readDigits]; try norm_num)
    (by simp +decide [cpuTotalOf, cpuParts, jsSplitWs, splitWsAux, isWsChar,
      jsNumber, parseMantissa, parseExp, readDigits, JSNum.add]; try norm_num)
    (by norm_num) (by norm_num)

set_option maxRecDepth 100000 in
set_option maxHeartbeats 1000000 in
/-- Claim C6: `parseMemoryUsage` extracts the integers after the
`MemTotal:` and `MemAvailable:` labels and returns the rounded used
percentage: `60` on the test suite's blob; and whenever both labels are
absent, the `|| "… 0 kB"` fallbacks make it compute `0/0`, which is
`NaN`, with no exception. -/
theorem c6_memory_usage :
    parseMemoryUsage memInfoSample = JSNum.val 60 ∧
    (∀ data : String,
      (jsSplitChar '\n' data).find? (fun line => strStarts line "MemTotal:") =
        none →
      (jsSplitChar '\n' data).find? (fun line => strStarts line "MemAvailable:") =
        none →
      parseMemoryUsage data = JSNum.nan) := by
  constructor
  · simp +decide [parseMemoryUsage, memInfoSample, jsSplitChar, splitOnChar,
      strStarts, listStarts, extractValue, extractValueAux, isWsChar, parseIntJS,
      readDigits, JSNum.sub, JSNum.add, JSNum.neg, JSNum.mul, JSNum.div, round2,
      round2q]
    norm_num
  · intro data hT hA
    simp only [parseMemoryUsage, hT, hA, Option.getD]
    simp +decide [extractValue, extractValueAux, isWsChar, parseIntJS, readDigits,
      JSNum.sub, JSNum.add, JSNum.neg, JSNum.mul, JSNum.div, round2]

theorem c6_memory_usage_witness :
    parseMemoryUsage "invalid data" = JSNum.nan :=
  c6_memory_usage.2 "invalid data" (by decide) (by decide)

theorem ratToString_zero : ratToString 0 = "0" := by
  simp +decide [ratToString, fracDigits,
    show ((0 : ℚ)).num = 0 from by norm_num,
    show ((0 : ℚ)).den = 1 from by norm_num,
    show ¬((0 : ℚ) < 0) from by norm_num]

set_option maxRecDepth 100000 in
set_option maxHeartbeats 1000000 in
/-- Claim C9 fails on the code: `stop()` is a complete no-op when no
timer is active, so it does not clear the rendered output.  Such a
state is reachable: `collectAndUpdate` can be invoked directly on a
stopped monitor (the display-options menu does exactly that), filling
the status text; a subsequent `stop()` leaves that text in place. -/
theorem c9_stop_counterexample :
    (stop (collectAndUpdate freshMonitor (Except.ok "") (Except.ok "")
      (Except.ok "")).1).statusText = "CPU: 0% | MEM: NaN% | Load: NaN" ∧
    "CPU: 0% | MEM: NaN% | Load: NaN" ≠ "" := by
  refine ⟨?_, by decide⟩
  simp +decide [collectAndUpdate, freshMonitor, freshCpu, stop, parseCPUUsage,
    findCpuLine, jsSplitChar, splitOnChar, strStarts, listStarts, parseMemoryUsage,
    extractValue, extractValueAux, isWsChar, parseIntJS, readDigits,
    parseLoadAverages, parseFloatJS, parseMantissa, parseExp, updateStatusBar,
    jsToString, ratToString_zero, String.intercalate, JSNum.sub, JSNum.add,
    JSNum.neg, JSNum.mul, JSNum.div, round2]

/-- Claim C9 amended: `stop()` always leaves the timer inactive and is
idempotent; it clears the rendered output when a timer was active, and
leaves the monitor (status text included) entirely unchanged when none
was. -/
theorem c9_stop_amended (st : MonitorState) :
    (stop st).intervalId = none ∧
    stop (stop st) = stop st ∧
    (st.intervalId ≠ none → (stop st).statusText = "") ∧
    (st.intervalId = none → stop st = st) := by
  cases h : st.intervalId <;> simp [stop, h]

/-- A monitor with an active timer scheduled at the default period. -/
def runningMonitor : MonitorState := { freshMonitor with intervalId := some 1000 }

theorem c9_stop_amended_witness :
    ((stop runningMonitor).intervalId = none ∧
     (stop runningMonitor).statusText = "") ∧
    stop freshMonitor = freshMonitor :=
  ⟨⟨(c9_stop_amended runningMonitor).1,
    (c9_stop_amended runningMonitor).2.2.1 (by simp [runningMonitor, freshMonitor])⟩,
   (c9_stop_amended freshMonitor).2.2.2 rfl⟩
